import Mathlib

/-!
Verification of the agent-orchestrator core of `scripts/ai-agent-orchestrator.py`
(kai-rasilainen/car-demo-system).

Shallow embedding notes.
* The completion service (`OllamaClient.generate`) is an opaque external boundary;
  we model it as an oracle `reply : String → String` mapping the invoked agent's
  name to the raw text of its reply.  Each agent is invoked at most once per run,
  so a name-indexed oracle covers every possible sequence of replies.  The prompt
  text (which is where the feature request and accumulated context are serialized)
  only flows into this oracle, so it is not modelled further.
* `json.loads` is Python's standard library, also external to the repository; it is
  modelled as an oracle `parse : List Char → Option PyObj`.  The slice handed to it
  always begins with a left brace and ends with a right brace, and a valid JSON
  document that starts with a left brace is an object, so the oracle returns an
  association list of string keys (Python preserves insertion order; duplicate keys
  collapse to the last one, which the oracle is free to reflect).  `none` models a
  `json.JSONDecodeError`.
* Python strings are modelled as `List Char` (Python indexes by code point).
  `str.lower`/`str.strip` are embedded for the ASCII range, which covers every
  string the program itself constructs.
* Python numbers reachable from parsed JSON are modelled as `ℤ` (exact arithmetic;
  the program's own numeric constants are the integer 0, and every claim is
  insensitive to fractional values — floating-point representation is out of scope
  for this embedding).  Python's `sum` raises `TypeError` when it adds a
  non-numeric value; that partiality is modelled with `Option`.
-/

/-- JSON values as returned by the parse oracle (Python: dict/list/str/number/bool/None). -/
inductive Json where
  | null : Json
  | bool : Bool → Json
  | num : ℤ → Json
  | str : String → Json
  | arr : List Json → Json
  | obj : List (String × Json) → Json

/-- A parsed JSON object / Python dict in insertion order. -/
abbrev PyObj := List (String × Json)

/-- ASCII lower-casing of one character, as `str.lower` does on the ASCII range. -/
def asciiLower (c : Char) : Char :=
  if 65 ≤ c.toNat ∧ c.toNat ≤ 90 then Char.ofNat (c.toNat + 32) else c

def spaceChar : Char := Char.ofNat 32

def hyphenChar : Char := Char.ofNat 45

def underscoreChar : Char := Char.ofNat 95

def newlineChar : Char := Char.ofNat 10

def backtickChar : Char := Char.ofNat 96

def lbraceChar : Char := Char.ofNat 123

def rbraceChar : Char := Char.ofNat 125

/-- Python `str.lower()` (ASCII range). -/
def pyLower (s : String) : String := String.mk (s.data.map asciiLower)

/-- `name.lower().replace("-", "_")` — the key normalization used for the analyses
map (line 372) and for the `needs_*` lookups in `_analyze_recursive` (line 380). -/
def pyKeyRec (s : String) : String :=
  String.mk (s.data.map fun c => if c = hyphenChar then underscoreChar else asciiLower c)

/-- `name.lower().replace(" ", "_").replace("-", "_")` — the normalization used for
the `needs_*` keys inside `Agent.analyze` (lines 83, 152, 178). -/
def pyKeyFull (s : String) : String :=
  String.mk (s.data.map fun c =>
    if c = spaceChar then underscoreChar
    else if c = hyphenChar then underscoreChar
    else asciiLower c)

/-- The whitespace characters stripped by Python `str.strip()` (ASCII range). -/
def wsChar (c : Char) : Bool :=
  c.toNat = 32 || c.toNat = 9 || c.toNat = 10 || c.toNat = 13 || c.toNat = 11 || c.toNat = 12

/-- Python `str.strip()`. -/
def pyStrip (l : List Char) : List Char :=
  ((l.dropWhile wsChar).reverse.dropWhile wsChar).reverse

/-- Python `str.split('\n')`. -/
def splitNL : List Char → List (List Char)
  | [] => [[]]
  | c :: t =>
    if c = newlineChar then [] :: splitNL t
    else
      match splitNL t with
      | [] => [[c]]
      | h :: r => (c :: h) :: r

/-- Python `'\n'.join(lines)`. -/
def joinNL : List (List Char) → List Char
  | [] => []
  | [x] => x
  | x :: y :: t => x ++ newlineChar :: joinNL (y :: t)

/-- `startsW p l` is Python `l.startswith(p)`. -/
def startsW : List Char → List Char → Bool
  | [], _ => true
  | _ :: _, [] => false
  | a :: as, b :: bs => a == b && startsW as bs

/-- `occurs w s` is Python `w in s` (substring containment). -/
def occurs (w : List Char) : List Char → Bool
  | [] => w.isEmpty
  | c :: t => startsW w (c :: t) || occurs w t

/-- The markdown code-fence marker. -/
def fenceChars : List Char := [backtickChar, backtickChar, backtickChar]

/-- Lines 115–125 of `Agent.analyze`: strip whitespace, then (when the text starts
with a code fence) drop the opening fence line and a trailing fence line. -/
def stripFence (respData : List Char) : List Char :=
  let cleaned := pyStrip respData
  if startsW fenceChars cleaned then
    let ls := splitNL cleaned
    let ls1 :=
      match ls with
      | [] => []
      | l0 :: rest => if startsW fenceChars l0 then rest else l0 :: rest
    let ls2 :=
      match ls1.getLast? with
      | none => ls1
      | some lastLine => if pyStrip lastLine = fenceChars then ls1.dropLast else ls1
    joinNL ls2
  else cleaned

/-- Python `s.find(c)`: index of the first occurrence. -/
def findIdxFwd (c : Char) : List Char → Option Nat
  | [] => none
  | x :: t => if x = c then some 0 else (findIdxFwd c t).map (· + 1)

/-- Python `s.rfind(c)`: index of the last occurrence. -/
def findIdxBwd (c : Char) : List Char → Option Nat
  | [] => none
  | x :: t =>
    match findIdxBwd c t with
    | some i => some (i + 1)
    | none => if x = c then some 0 else none

/-- Lines 127–132: `start = cleaned.find('{')`, `end = cleaned.rfind('}') + 1`,
slice `cleaned[start:end]` when `start >= 0 and end > start`. -/
def braceSlice (l : List Char) : Option (List Char) :=
  let s : Int := match findIdxFwd lbraceChar l with | some i => (i : Int) | none => -1
  let e : Int := match findIdxBwd rbraceChar l with | some j => (j : Int) + 1 | none => 0
  if 0 ≤ s ∧ s < e then some ((l.drop s.toNat).take (e.toNat - s.toNat)) else none

/-- Python dict assignment `d[k] = v`: replace in place, else append. -/
def dinsert {α : Type} : List (String × α) → String → α → List (String × α)
  | [], k, v => [(k, v)]
  | (k', v') :: t, k, v => if k' = k then (k, v) :: t else (k', v') :: dinsert t k v

/-- Python `k in d`. -/
def dmem (d : PyObj) (k : String) : Bool := d.any (fun kv => kv.1 == k)

/-- Python `d[k]` as an `Option`. -/
def dgetOpt (d : PyObj) (k : String) : Option Json := (d.find? (fun kv => kv.1 == k)).map (·.2)

/-- Python `d.get(k, dflt)`. -/
def dgetD (d : PyObj) (k : String) (dflt : Json) : Json := (dgetOpt d k).getD dflt

def impactKey : String := "impact"

def componentsKey : String := "components"

def changesKey : String := "changes"

def effortKey : String := "effort_hours"

def risksKey : String := "risks"

def notProvidedTxt : String := "Not provided"

def unknownTxt : String := "Unknown"

def analysisNeededTxt : String := "Analysis needed"

def unavailableTxt : String := "AI analysis unavailable"

def analyzingPre : String := "Analyzing impact of: "

def needsTag : String := "needs_"

/-- The `needs_<agent>` key as built inside `Agent.analyze`. -/
def needsKey (d : String) : String := needsTag ++ pyKeyFull d

/-- The `needs_<agent>` key as built inside `_analyze_recursive` (no space replacement). -/
def needsKeyR (d : String) : String := needsTag ++ pyKeyRec d

/-- Line 136: the five required keys of an analysis record. -/
def requiredKeys : List String := [impactKey, componentsKey, changesKey, effortKey, risksKey]

/-- Lines 142–148: the default backfilled for a missing required key. -/
def defaultFor (k : String) : Json :=
  if k = effortKey then Json.num 0
  else if k = componentsKey ∨ k = changesKey ∨ k = risksKey then Json.arr []
  else Json.str notProvidedTxt

/-- The loop of lines 177–179: assign `needs_<agent> = False` for each downstream. -/
def setFlagsFalse (ds : List String) (base : PyObj) : PyObj :=
  ds.foldl (fun a d => dinsert a (needsKey d) (Json.bool false)) base

/-- Lines 167–180, `Agent._create_default_analysis`: the fallback record. -/
def defaultAnalysis (req : String) (ds : List String) : PyObj :=
  setFlagsFalse ds
    [(impactKey, Json.str (analyzingPre ++ req)),
     (componentsKey, Json.arr [Json.str unknownTxt]),
     (changesKey, Json.arr [Json.str analysisNeededTxt]),
     (effortKey, Json.num 0),
     (risksKey, Json.arr [Json.str unavailableTxt])]

/-- Lines 137–148: collect the required keys missing from the parsed record and
fill each with its default.  (The source computes `missing_keys` first and then
assigns; since assigning one key never changes another key's membership, checking
membership during the fold is the same function.) -/
def backfillRequired (analysis0 : PyObj) : PyObj :=
  (requiredKeys.filter (fun k => !(dmem analysis0 k))).foldl
    (fun a k => dinsert a k (defaultFor k)) analysis0

/-- Lines 150–154: ensure a `needs_*` entry exists for every downstream name,
defaulting to `False`. -/
def ensureFlags (ds : List String) (a : PyObj) : PyObj :=
  ds.foldl
    (fun a d =>
      let key := needsKey d
      if dmem a key then a else dinsert a key (Json.bool false)) a

/-- Lines 112–165 of `Agent.analyze`, the response-interpretation pipeline:
fence stripping, brace slicing, parsing (oracle), required-key backfill, and
`needs_*` flag completion.  `req` is the feature request (used only by the default
record), `ds` the agent's downstream names. -/
def interpret (req : String) (ds : List String) (raw : String)
    (parse : List Char → Option PyObj) : PyObj :=
  let cleaned := stripFence raw.data
  match braceSlice cleaned with
  | none => defaultAnalysis req ds
  | some jsonStr =>
    match parse jsonStr with
    | none => defaultAnalysis req ds
    | some analysis0 => ensureFlags ds (backfillRequired analysis0)

/-- The parse outcome `interpret` acts on: `none` when there is no brace pair or the
parse oracle fails (both produce the default record), `some obj` otherwise. -/
def parsedObj (raw : String) (parse : List Char → Option PyObj) : Option PyObj :=
  match braceSlice (stripFence raw.data) with
  | none => none
  | some jsonStr => parse jsonStr

/-- An agent descriptor (class `Agent`, minus the transport handle). -/
structure AgentDef where
  name : String
  component : String
  role : String
  responsibilities : List String
  apis : List String
  downstream : List String

/-- `Agent-A1` (lines 188–196). -/
def agentA1 : AgentDef :=
  { name := "Agent-A1"
    component := "Car User Mobile App"
    role := "React Native Mobile Developer"
    responsibilities := ["User authentication", "Car browsing", "Booking management", "Real-time car status"]
    apis := ["GET /bookings", "POST /booking", "GET /car-status"]
    downstream := ["Agent-B1", "Agent-B2"] }

/-- `Agent-A2` (lines 198–206). -/
def agentA2 : AgentDef :=
  { name := "Agent-A2"
    component := "Rental Staff Web App"
    role := "React Web Developer"
    responsibilities := ["Fleet management UI", "Booking administration", "Staff dashboard", "Reports"]
    apis := ["GET /fleet", "PUT /car-status", "GET /reports"]
    downstream := ["Agent-B1", "Agent-B3", "Agent-B4"] }

/-- `Agent-B1` (lines 209–217). -/
def agentB1 : AgentDef :=
  { name := "Agent-B1"
    component := "Web Server (REST API)"
    role := "Node.js Backend Developer"
    responsibilities := ["REST API endpoints", "Authentication", "Business logic", "Data validation"]
    apis := ["/api/bookings", "/api/cars", "/api/users", "/api/fleet"]
    downstream := ["Agent-B3", "Agent-B4", "Agent-B2"] }

/-- `Agent-B2` (lines 219–227). -/
def agentB2 : AgentDef :=
  { name := "Agent-B2"
    component := "IoT Gateway"
    role := "WebSocket/IoT Developer"
    responsibilities := ["WebSocket server", "Real-time updates", "IoT device communication", "Event streaming"]
    apis := ["ws://iot-gateway", "/api/iot/status", "/api/iot/command"]
    downstream := ["Agent-C1", "Agent-C2"] }

/-- `Agent-B3` (lines 229–237). -/
def agentB3 : AgentDef :=
  { name := "Agent-B3"
    component := "Realtime Database (MongoDB)"
    role := "MongoDB Database Administrator"
    responsibilities := ["Real-time data storage", "Car status", "IoT data", "Session management"]
    apis := ["mongodb://realtime-db", "Collections: cars, sessions, iot_data"]
    downstream := [] }

/-- `Agent-B4` (lines 239–247). -/
def agentB4 : AgentDef :=
  { name := "Agent-B4"
    component := "Static Database (PostgreSQL)"
    role := "PostgreSQL Database Administrator"
    responsibilities := ["Transactional data", "Users", "Bookings", "Fleet data", "Reports"]
    apis := ["postgresql://static-db", "Tables: users, bookings, fleet, reports"]
    downstream := [] }

/-- `Agent-C1` (lines 250–258). -/
def agentC1 : AgentDef :=
  { name := "Agent-C1"
    component := "Cloud Communication"
    role := "Python Cloud Integration Developer"
    responsibilities := ["Cloud connectivity", "Data synchronization", "Remote commands", "Status updates"]
    apis := ["HTTP client to IoT Gateway", "Redis pub/sub"]
    downstream := ["Agent-C2"] }

/-- `Agent-C2` (lines 260–268). -/
def agentC2 : AgentDef :=
  { name := "Agent-C2"
    component := "Central Broker (Redis)"
    role := "Redis/Message Queue Administrator"
    responsibilities := ["Message routing", "Pub/sub channels", "Data buffering", "Event distribution"]
    apis := ["redis://broker", "Channels: car_status, commands, sensor_data"]
    downstream := ["Agent-C3", "Agent-C4", "Agent-C5"] }

/-- `Agent-C3` (lines 270–278). -/
def agentC3 : AgentDef :=
  { name := "Agent-C3"
    component := "CAN Bus Interface"
    role := "CAN Bus Integration Developer"
    responsibilities := ["CAN bus communication", "Vehicle network", "Protocol translation"]
    apis := ["CAN interface", "Vehicle data access"]
    downstream := [] }

/-- `Agent-C4` (lines 280–288). -/
def agentC4 : AgentDef :=
  { name := "Agent-C4"
    component := "Vehicle Controller"
    role := "Embedded Systems Developer"
    responsibilities := ["Vehicle control logic", "Command execution", "Safety checks", "State management"]
    apis := ["Control commands", "Vehicle state"]
    downstream := ["Agent-C3"] }

/-- `Agent-C5` (lines 290–298). -/
def agentC5 : AgentDef :=
  { name := "Agent-C5"
    component := "Data Sensors"
    role := "IoT Sensor Developer"
    responsibilities := ["Sensor data collection", "GPS", "Fuel level", "Tire pressure", "Diagnostics"]
    apis := ["Sensor readings", "GPS coordinates", "Vehicle telemetry"]
    downstream := ["Agent-C3"] }

/-- The registry `self.agents` (lines 301–313); its dict keys equal the agent names. -/
def srcAgents : List AgentDef :=
  [agentA1, agentA2, agentB1, agentB2, agentB3, agentB4, agentC1, agentC2, agentC3, agentC4, agentC5]

/-- `self.agents.get(agent_name)` (line 357), over an arbitrary registry. -/
def registryFind (reg : List AgentDef) (n : String) : Option AgentDef :=
  reg.find? (fun a => a.name == n)

/-- The names present in a registry. -/
def regNames (reg : List AgentDef) : List String := reg.map AgentDef.name

/-- Python truthiness of a JSON value (used by `if analysis.get(agent_key, False)`). -/
def pyTruthy : Json → Bool
  | Json.null => false
  | Json.bool b => b
  | Json.num q => if q = 0 then false else true
  | Json.str s => if s = "" then false else true
  | Json.arr l => !l.isEmpty
  | Json.obj m => !m.isEmpty

/-- The run state mutated by `_analyze_recursive`: `agents_involved`, `analyses`,
`call_tree` (entries `{"agent": ..., "level": ...}` modelled as pairs), and the
`context` dict threaded into later invocations. -/
structure TState where
  visited : List String
  analyses : List (String × PyObj)
  tree : List (String × Nat)
  context : List (String × PyObj)

def initState : TState := ⟨[], [], [], []⟩

/-- Lines 371–376: record the agent in the visited sequence, the analyses map
(under the normalized key), the call tree, and the context. -/
def recordStep (name : String) (level : Nat) (analysis : PyObj) (st : TState) : TState :=
  { visited := st.visited ++ [name]
    analyses := dinsert st.analyses (pyKeyRec name) analysis
    tree := st.tree ++ [(name, level)]
    context := dinsert st.context name analysis }

/-- Lines 353–383, `AgentOrchestrator._analyze_recursive`.  The `fuel` argument
only bounds recursion depth for Lean's sake: a chain of `fuel` nested calls that
all invoke an agent adds `fuel` distinct visited names, so with
`fuel > reg.length` the zero-fuel branch (returning the state unchanged) is only
reachable in states where the Python code would also return unchanged (the name is
already visited or not in the registry). -/
def analyzeRec (reg : List AgentDef) (req : String) (reply : String → String)
    (parse : List Char → Option PyObj) : Nat → String → Nat → TState → TState
  | 0, _, _, st => st
  | fuel + 1, name, level, st =>
    match registryFind reg name with
    | none => st
    | some ag =>
      if name ∈ st.visited then st
      else
        let analysis := interpret req ag.downstream (reply name) parse
        ag.downstream.foldl
          (fun acc d =>
            if pyTruthy (dgetD analysis (needsKeyR d) (Json.bool false)) then
              analyzeRec reg req reply parse fuel d (level + 1) acc
            else acc) (recordStep name level analysis st)

def kwMobile : List String := ["mobile", "app", "user", "customer", "booking"]

def kwStaff : List String := ["staff", "admin", "fleet", "report", "dashboard"]

def agentA1name : String := "Agent-A1"

def agentA2name : String := "Agent-A2"

/-- Lines 327–335: keyword-driven choice of the starting agents, with the
fixed fallback when nothing matches. -/
def startAgents (req : String) : List String :=
  let low := pyLower req
  let s1 := if kwMobile.any (fun w => occurs w.data low.data) then [agentA1name] else []
  let s2 := if kwStaff.any (fun w => occurs w.data low.data) then [agentA2name] else []
  let chosen := s1 ++ s2
  if chosen.isEmpty then [agentA1name, agentA2name] else chosen

/-- Lines 340–342: run the recursive analysis from each starting agent at level 0,
threading the shared state. -/
def orchestrateCore (reg : List AgentDef) (fuel : Nat) (req : String)
    (reply : String → String) (parse : List Char → Option PyObj) : TState :=
  (startAgents req).foldl (fun st n => analyzeRec reg req reply parse fuel n 0 st) initState

/-- One step of Python `sum`: `acc + v`.  Adding a bool works (bool is an int
subclass); adding any other non-number raises `TypeError`, modelled as `none`. -/
def pyAddNum (acc : ℤ) : Json → Option ℤ
  | Json.num q => some (acc + q)
  | Json.bool b => some (acc + (if b then 1 else 0))
  | _ => none

def pySumGo : ℤ → List Json → Option ℤ
  | acc, [] => some acc
  | acc, v :: t =>
    match pyAddNum acc v with
    | none => none
    | some a => pySumGo a t

/-- Python `sum(...)` over a list of JSON values, starting from 0. -/
def pySum (l : List Json) : Option ℤ := pySumGo 0 l

/-- The `results` dict returned by `orchestrate` (lines 319–324 and 349). -/
structure OrchestrationResult where
  feature_request : String
  agents_involved : List String
  analyses : List (String × PyObj)
  call_tree : List (String × Nat)
  total_effort_hours : ℤ

/-- More fuel than the traversal can consume on the 11-agent registry. -/
def defaultFuel : Nat := srcAgents.length + 1

/-- Lines 315–351, `AgentOrchestrator.orchestrate`: seed selection, recursive
traversal, and the final effort aggregation.  `none` models the run raising
(`sum` hitting a non-numeric `effort_hours`). -/
def orchestrate (req : String) (reply : String → String)
    (parse : List Char → Option PyObj) : Option OrchestrationResult :=
  let st := orchestrateCore srcAgents defaultFuel req reply parse
  match pySum (st.analyses.map (fun p => dgetD p.2 effortKey (Json.num 0))) with
  | none => none
  | some t =>
    some { feature_request := req, agents_involved := st.visited, analyses := st.analyses,
           call_tree := st.tree, total_effort_hours := t }

/-- The all-failures completion oracle: every call returns the empty string. -/
def oracleEmpty : String → String := fun _ => ""

/-- The never-succeeding parse oracle. -/
def parseNone : List Char → Option PyObj := fun _ => none

def dummyResult : OrchestrationResult := ⟨"", [], [], [], 0⟩

/-- Depth-consistency of a call-tree fragment: `CallTreeFrom d l` holds when `l`
is the preorder flattening of a forest whose roots are annotated `d` and in which
every child sits one level deeper than its parent.  An entry `(a, k)` in a list
satisfying `CallTreeFrom 0` therefore carries exactly the number of recursion
edges from the seed whose subtree contains it. -/
inductive CallTreeFrom : Nat → List (String × Nat) → Prop where
  | nil (d : Nat) : CallTreeFrom d []
  | grow (d : Nat) (a : String) (inner rest : List (String × Nat)) :
      CallTreeFrom (d + 1) inner → CallTreeFrom d rest →
      CallTreeFrom d ((a, d) :: inner ++ rest)

/-- The analyses-map key normalization is injective on the registry's names.
It holds for the source registry (checked by `decide` below) but not for an
arbitrary one, so invariants that need it carry it as a hypothesis. -/
def KeyInj (reg : List AgentDef) : Prop :=
  ∀ a ∈ regNames reg, ∀ b ∈ regNames reg, pyKeyRec a = pyKeyRec b → a = b

/-- The traversal invariant: no duplicate visits, the call tree lists exactly the
visited names in order, only registry names are visited, and (when the key
normalization is injective on the registry) the analyses map is keyed by the
normalized visited names in order. -/
def TInv (reg : List AgentDef) (st : TState) : Prop :=
  st.visited.Nodup ∧
  st.tree.map Prod.fst = st.visited ∧
  (∀ x ∈ st.visited, x ∈ regNames reg) ∧
  (KeyInj reg → st.analyses.map Prod.fst = st.visited.map pyKeyRec)

/-- How one traversal step extends the state: the visited list and the call tree
only grow by appending, and the appended call-tree fragment is depth-consistent
at the level of that step. -/
def TExt (level : Nat) (st stp : TState) : Prop :=
  (∃ vs, stp.visited = st.visited ++ vs) ∧
  (∃ seg, stp.tree = st.tree ++ seg ∧ CallTreeFrom level seg)

def agentB1name : String := "Agent-B1"

/-- The normalized analyses-map key of `Agent-A1`. -/
def agentA1key : String := "agent_a1"

/-- Concrete feature-request text used by witnesses (content irrelevant). -/
def wReq : String := "w"

/-- A feature request containing none of the selection keywords. -/
def noKwReq : String := "qqq"

def c2Req : String := "zzz"

/-- A reply whose parsed record carries a non-numeric `effort_hours`; summing it
raises `TypeError` in the source. -/
def c2ReplyText : String :=
  "\x7b\"impact\": \"x\", \"components\": [], \"changes\": [], \"effort_hours\": \"ten\", \"risks\": []\x7d"

/-- The JSON object denoted by `c2ReplyText` (what `json.loads` returns on it). -/
def c2Obj : PyObj :=
  [(impactKey, Json.str ("x")), (componentsKey, Json.arr []), (changesKey, Json.arr []),
   (effortKey, Json.str ("ten")), (risksKey, Json.arr [])]

def c2Reply : String → String := fun n => if n = agentA1name then c2ReplyText else ""

def c2Parse : List Char → Option PyObj :=
  fun s => if s = c2ReplyText.data then some c2Obj else none

def c5Req : String := "r5"

def c5Raw : String := "no structured content"

def c6Req : String := "r6"

/-- A bare empty JSON object. -/
def c6Raw : String := "\x7b\x7d"

def c6Parse : List Char → Option PyObj := fun s => if s = c6Raw.data then some [] else none

def c7Req : String := "r7"

def yesTxt : String := "yes"

/-- A reply supplying a non-boolean value for a `needs_*` flag. -/
def c7Raw : String := "\x7b\"needs_agent_b1\": \"yes\"\x7d"

def c7Obj : PyObj := [(needsKey agentB1name, Json.str yesTxt)]

def c7Parse : List Char → Option PyObj := fun s => if s = c7Raw.data then some c7Obj else none

def c7wRaw : String := "free text"

def c9Req : String := "r9"

/-- A reply supplying a negative `effort_hours`. -/
def c9Raw : String := "\x7b\"effort_hours\": -1\x7d"

def c9Obj : PyObj := [(effortKey, Json.num (-1))]

def c9Parse : List Char → Option PyObj := fun s => if s = c9Raw.data then some c9Obj else none

def c9wRaw : String := "still free text"

theorem dmem_cons (kv : String × Json) (t : PyObj) (k : String) :
    dmem (kv :: t) k = (kv.1 == k || dmem t k) := by
  simp [dmem]

theorem dgetOpt_cons (k' : String) (v' : Json) (t : PyObj) (k : String) :
    dgetOpt ((k', v') :: t) k = if k' = k then some v' else dgetOpt t k := by
  by_cases h : k' = k
  · rw [dgetOpt, List.find?_cons_of_pos _ (by simpa using h)]
    simp [h]
  · rw [dgetOpt, List.find?_cons_of_neg _ (by simpa using h), if_neg h]
    rfl

theorem dinsert_cons {A : Type} (k' : String) (v' : A) (t : List (String × A))
    (k : String) (v : A) :
    dinsert ((k', v') :: t) k v = if k' = k then (k, v) :: t else (k', v') :: dinsert t k v := rfl

theorem dmem_iff (d : PyObj) (k : String) : dmem d k = true ↔ k ∈ d.map Prod.fst := by
  simp [dmem, List.any_eq_true, beq_iff_eq, List.mem_map]

theorem dmem_false_iff (d : PyObj) (k : String) : dmem d k = false ↔ k ∉ d.map Prod.fst := by
  rw [← Bool.not_eq_true, not_iff_not]
  exact dmem_iff d k

theorem dgetOpt_dinsert_self (d : PyObj) (k : String) (v : Json) :
    dgetOpt (dinsert d k v) k = some v := by
  induction d with
  | nil => simp [dinsert, dgetOpt]
  | cons kv t ih =>
    obtain ⟨k', v'⟩ := kv
    rw [dinsert_cons]
    by_cases h : k' = k
    · rw [if_pos h, dgetOpt_cons, if_pos rfl]
    · rw [if_neg h, dgetOpt_cons, if_neg h, ih]

theorem dgetOpt_dinsert_ne (d : PyObj) (k k2 : String) (v : Json) (h : k ≠ k2) :
    dgetOpt (dinsert d k2 v) k = dgetOpt d k := by
  induction d with
  | nil =>
    show dgetOpt [(k2, v)] k = dgetOpt [] k
    rw [dgetOpt_cons, if_neg (fun he => h he.symm)]
  | cons kv t ih =>
    obtain ⟨k', v'⟩ := kv
    rw [dinsert_cons]
    by_cases h2 : k' = k2
    · rw [if_pos h2, dgetOpt_cons, dgetOpt_cons, if_neg (fun he => h he.symm),
        if_neg (fun he => h (h2 ▸ he).symm)]
    · rw [if_neg h2, dgetOpt_cons, dgetOpt_cons, ih]

theorem dmem_dinsert (d : PyObj) (k k2 : String) (v : Json) :
    dmem (dinsert d k2 v) k = (k2 == k || dmem d k) := by
  induction d with
  | nil => simp [dinsert, dmem]
  | cons kv t ih =>
    obtain ⟨k', v'⟩ := kv
    rw [dinsert_cons]
    by_cases h2 : k' = k2
    · subst h2
      rw [if_pos rfl, dmem_cons, dmem_cons]
      simp
    · rw [if_neg h2, dmem_cons, dmem_cons, ih]
      cases h3 : (k' == k) <;> cases h4 : (k2 == k) <;> simp [h3, h4]

theorem dinsert_append {A : Type} (d : List (String × A)) (k : String) (v : A)
    (h : k ∉ d.map Prod.fst) : dinsert d k v = d ++ [(k, v)] := by
  induction d with
  | nil => simp [dinsert]
  | cons kv t ih =>
    obtain ⟨k', v'⟩ := kv
    simp only [List.map_cons, List.mem_cons, not_or] at h
    rw [dinsert_cons, if_neg (fun he => h.1 he.symm), ih h.2]
    simp

theorem map_fst_dinsert_of_not_mem {A : Type} (d : List (String × A)) (k : String) (v : A)
    (h : k ∉ d.map Prod.fst) :
    (dinsert d k v).map Prod.fst = d.map Prod.fst ++ [k] := by
  rw [dinsert_append d k v h]
  simp

theorem needsKey_data (d : String) :
    (needsKey d).data = needsTag.data ++ (pyKeyFull d).data := by
  rw [needsKey, String.data_append]

theorem needsKey_ne_req (d k : String) (hk : k ∈ requiredKeys) : needsKey d ≠ k := by
  intro h
  have hd := congrArg String.data h
  rw [needsKey_data, show needsTag.data = [Char.ofNat 110, Char.ofNat 101, Char.ofNat 101,
    Char.ofNat 100, Char.ofNat 115, Char.ofNat 95] from rfl] at hd
  have hh := congrArg List.head? hd
  simp only [requiredKeys, List.mem_cons, List.not_mem_nil, or_false] at hk
  rcases hk with h1 | h1 | h1 | h1 | h1 <;> subst h1 <;>
    exact absurd (Option.some.inj hh) (by decide)

theorem requiredKeys_nodup : requiredKeys.Nodup := by decide

theorem setFlagsFalse_dget (ds : List String) (base : PyObj) (k : String) :
    dgetOpt (setFlagsFalse ds base) k =
      if ds.any (fun d => needsKey d == k) then some (Json.bool false)
      else dgetOpt base k := by
  induction ds generalizing base with
  | nil => simp [setFlagsFalse]
  | cons d t ih =>
    show dgetOpt (setFlagsFalse t (dinsert base (needsKey d) (Json.bool false))) k = _
    rw [ih]
    by_cases h2 : t.any (fun d2 => needsKey d2 == k) = true
    · simp [List.any_cons, h2]
    · by_cases h1 : needsKey d = k
      · subst h1
        rw [if_neg h2, dgetOpt_dinsert_self]
        simp [List.any_cons, h2]
      · have hbeq : (needsKey d == k) = false := by simpa using h1
        rw [if_neg h2, dgetOpt_dinsert_ne _ _ _ _ (fun he => h1 he.symm)]
        simp [List.any_cons, h2, hbeq]

theorem dmem_setFlagsFalse (ds : List String) (base : PyObj) (k : String) :
    dmem (setFlagsFalse ds base) k =
      (ds.any (fun d => needsKey d == k) || dmem base k) := by
  induction ds generalizing base with
  | nil => simp [setFlagsFalse]
  | cons d t ih =>
    show dmem (setFlagsFalse t (dinsert base (needsKey d) (Json.bool false))) k = _
    rw [ih, dmem_dinsert]
    simp only [List.any_cons]
    cases h1 : (needsKey d == k) <;> cases h2 : t.any (fun d2 => needsKey d2 == k) <;>
      simp [h1, h2]

theorem ensureFlags_dget (ds : List String) (a : PyObj) (k : String) :
    dgetOpt (ensureFlags ds a) k =
      if dmem a k then dgetOpt a k
      else if ds.any (fun d => needsKey d == k) then some (Json.bool false)
      else dgetOpt a k := by
  induction ds generalizing a with
  | nil => simp [ensureFlags]
  | cons d t ih =>
    show dgetOpt (ensureFlags t (if dmem a (needsKey d) then a
      else dinsert a (needsKey d) (Json.bool false))) k = _
    by_cases hm : dmem a (needsKey d) = true
    · rw [if_pos hm, ih]
      by_cases hk : dmem a k = true
      · simp [hk]
      · have h1 : (needsKey d == k) = false := by
          cases hy : (needsKey d == k)
          · rfl
          · exfalso
            have he : needsKey d = k := by simpa using hy
            rw [← he] at hk
            exact hk hm
        simp [hk, List.any_cons, h1]
    · rw [if_neg hm, ih]
      by_cases h1 : needsKey d = k
      · have hk : dmem a k = false := by
          rw [← h1]
          simpa using hm
        have hm2 : dmem (dinsert a (needsKey d) (Json.bool false)) k = true := by
          rw [dmem_dinsert, h1]
          simp
        have hg : dgetOpt (dinsert a (needsKey d) (Json.bool false)) k = some (Json.bool false) := by
          rw [h1, dgetOpt_dinsert_self]
        rw [if_pos hm2, hg, if_neg (by simp [hk]), if_pos (by simp [List.any_cons, h1])]
      · have hbeq : (needsKey d == k) = false := by simpa using h1
        have hm2 : dmem (dinsert a (needsKey d) (Json.bool false)) k = dmem a k := by
          rw [dmem_dinsert, hbeq]
          simp
        rw [hm2, dgetOpt_dinsert_ne _ _ _ _ (fun he => h1 he.symm)]
        simp [List.any_cons, hbeq]

theorem dmem_ensureFlags (ds : List String) (a : PyObj) (k : String) :
    dmem (ensureFlags ds a) k = (ds.any (fun d => needsKey d == k) || dmem a k) := by
  induction ds generalizing a with
  | nil => simp [ensureFlags]
  | cons d t ih =>
    show dmem (ensureFlags t (if dmem a (needsKey d) then a
      else dinsert a (needsKey d) (Json.bool false))) k = _
    by_cases hm : dmem a (needsKey d) = true
    · rw [if_pos hm, ih]
      by_cases h1 : needsKey d = k
      · subst h1
        simp [List.any_cons, hm]
      · simp [List.any_cons, (by simpa using h1 : (needsKey d == k) = false)]
    · rw [if_neg hm, ih, dmem_dinsert]
      simp only [List.any_cons]
      cases h1 : (needsKey d == k) <;> cases h2 : t.any (fun d2 => needsKey d2 == k) <;>
        simp [h1, h2]

theorem foldl_dinsert_dget (f : String → Json) (ks : List String) (a : PyObj) (k : String)
    (hnd : ks.Nodup) :
    dgetOpt (ks.foldl (fun x c => dinsert x c (f c)) a) k =
      if k ∈ ks then some (f k) else dgetOpt a k := by
  induction ks generalizing a with
  | nil => simp
  | cons c t ih =>
    show dgetOpt (t.foldl (fun x c => dinsert x c (f c)) (dinsert a c (f c))) k = _
    rw [ih _ (List.Nodup.of_cons hnd)]
    by_cases ht : k ∈ t
    · rw [if_pos ht, if_pos (List.mem_cons_of_mem c ht)]
    · by_cases hck : c = k
      · subst hck
        rw [if_neg ht, dgetOpt_dinsert_self, if_pos (List.mem_cons_self c t)]
      · rw [if_neg ht, dgetOpt_dinsert_ne _ _ _ _ (fun he => hck he.symm), if_neg]
        intro hc
        rcases List.mem_cons.mp hc with he | he
        · exact hck he.symm
        · exact ht he

theorem foldl_dinsert_dmem (f : String → Json) (ks : List String) (a : PyObj) (k : String) :
    dmem (ks.foldl (fun x c => dinsert x c (f c)) a) k = (dmem a k || decide (k ∈ ks)) := by
  induction ks generalizing a with
  | nil => simp
  | cons c t ih =>
    show dmem (t.foldl (fun x c => dinsert x c (f c)) (dinsert a c (f c))) k = _
    rw [ih, dmem_dinsert]
    by_cases hck : c = k
    · subst hck
      simp
    · have hb : (c == k) = false := by simpa using hck
      have hd2 : ¬ k = c := fun he => hck he.symm
      simp [hb, List.mem_cons, hd2]

theorem missing_mem (a : PyObj) (k : String) :
    k ∈ requiredKeys.filter (fun c => !(dmem a c)) ↔ k ∈ requiredKeys ∧ dmem a k = false := by
  rw [List.mem_filter]
  simp

theorem backfillRequired_dget_req (a : PyObj) (k : String) (hk : k ∈ requiredKeys) :
    dgetOpt (backfillRequired a) k =
      if dmem a k then dgetOpt a k else some (defaultFor k) := by
  rw [backfillRequired, foldl_dinsert_dget _ _ _ _ (requiredKeys_nodup.filter _)]
  by_cases hm : dmem a k = true
  · have hnm : k ∉ requiredKeys.filter (fun c => !(dmem a c)) := by
      intro hc
      rw [missing_mem] at hc
      rw [hc.2] at hm
      cases hm
    rw [if_neg hnm, if_pos hm]
  · have hm2 : dmem a k = false := by simpa using hm
    rw [if_pos ((missing_mem a k).mpr ⟨hk, hm2⟩), if_neg hm]

theorem backfillRequired_dget_other (a : PyObj) (k : String) (hk : k ∉ requiredKeys) :
    dgetOpt (backfillRequired a) k = dgetOpt a k := by
  rw [backfillRequired, foldl_dinsert_dget _ _ _ _ (requiredKeys_nodup.filter _), if_neg]
  intro hc
  exact hk ((missing_mem a k).mp hc).1

theorem dmem_backfillRequired (a : PyObj) (k : String) :
    dmem (backfillRequired a) k = (dmem a k || decide (k ∈ requiredKeys)) := by
  rw [backfillRequired, foldl_dinsert_dmem]
  by_cases hr : k ∈ requiredKeys
  · by_cases hm : dmem a k = true
    · simp [hm, hr, missing_mem]
    · have hm2 : dmem a k = false := by simpa using hm
      simp [hm2, hr, missing_mem]
  · have hnm : k ∉ requiredKeys.filter (fun c => !(dmem a c)) :=
      fun hc => hr ((missing_mem a k).mp hc).1
    simp [hnm, hr]

theorem needsKey_not_req (d : String) : needsKey d ∉ requiredKeys := by
  intro hc
  exact needsKey_ne_req d (needsKey d) hc rfl

theorem interpret_eq_default (req : String) (ds : List String) (raw : String)
    (parse : List Char → Option PyObj) (h : parsedObj raw parse = none) :
    interpret req ds raw parse = defaultAnalysis req ds := by
  rw [parsedObj] at h
  simp only [interpret]
  cases hbs : braceSlice (stripFence raw.data) with
  | none => simp
  | some s =>
    rw [hbs] at h
    have h2 : parse s = none := h
    show (match parse s with
      | none => defaultAnalysis req ds
      | some analysis0 => ensureFlags ds (backfillRequired analysis0)) = defaultAnalysis req ds
    rw [h2]

theorem interpret_eq_parsed (req : String) (ds : List String) (raw : String)
    (parse : List Char → Option PyObj) (obj : PyObj) (h : parsedObj raw parse = some obj) :
    interpret req ds raw parse = ensureFlags ds (backfillRequired obj) := by
  rw [parsedObj] at h
  simp only [interpret]
  cases hbs : braceSlice (stripFence raw.data) with
  | none => rw [hbs] at h; cases h
  | some s =>
    rw [hbs] at h
    have h2 : parse s = some obj := h
    show (match parse s with
      | none => defaultAnalysis req ds
      | some analysis0 => ensureFlags ds (backfillRequired analysis0)) =
        ensureFlags ds (backfillRequired obj)
    rw [h2]

theorem defaultAnalysis_flags_false (ds : List String) (k : String)
    (hk : k ∈ requiredKeys) :
    (ds.any fun d => needsKey d == k) = false := by
  rw [List.any_eq_false]
  intro d hd
  simpa using needsKey_ne_req d k hk

theorem defaultAnalysis_impact (req : String) (ds : List String) :
    dgetOpt (defaultAnalysis req ds) impactKey = some (Json.str (analyzingPre ++ req)) := by
  rw [defaultAnalysis, setFlagsFalse_dget,
    defaultAnalysis_flags_false ds impactKey (by simp [requiredKeys])]
  rfl

theorem defaultAnalysis_components (req : String) (ds : List String) :
    dgetOpt (defaultAnalysis req ds) componentsKey = some (Json.arr [Json.str unknownTxt]) := by
  rw [defaultAnalysis, setFlagsFalse_dget,
    defaultAnalysis_flags_false ds componentsKey (by simp [requiredKeys])]
  rfl

theorem defaultAnalysis_changes (req : String) (ds : List String) :
    dgetOpt (defaultAnalysis req ds) changesKey = some (Json.arr [Json.str analysisNeededTxt]) := by
  rw [defaultAnalysis, setFlagsFalse_dget,
    defaultAnalysis_flags_false ds changesKey (by simp [requiredKeys])]
  rfl

theorem defaultAnalysis_effort (req : String) (ds : List String) :
    dgetOpt (defaultAnalysis req ds) effortKey = some (Json.num 0) := by
  rw [defaultAnalysis, setFlagsFalse_dget,
    defaultAnalysis_flags_false ds effortKey (by simp [requiredKeys])]
  rfl

theorem defaultAnalysis_risks (req : String) (ds : List String) :
    dgetOpt (defaultAnalysis req ds) risksKey = some (Json.arr [Json.str unavailableTxt]) := by
  rw [defaultAnalysis, setFlagsFalse_dget,
    defaultAnalysis_flags_false ds risksKey (by simp [requiredKeys])]
  rfl

theorem defaultAnalysis_needs (req : String) (ds : List String) (d : String) (hd : d ∈ ds) :
    dgetOpt (defaultAnalysis req ds) (needsKey d) = some (Json.bool false) := by
  rw [defaultAnalysis, setFlagsFalse_dget, if_pos]
  exact List.any_eq_true.mpr ⟨d, hd, by simp⟩

theorem defaultAnalysis_dmem_req (req : String) (ds : List String) (k : String)
    (hk : k ∈ requiredKeys) : dmem (defaultAnalysis req ds) k = true := by
  rw [defaultAnalysis, dmem_setFlagsFalse]
  simp only [requiredKeys, List.mem_cons, List.not_mem_nil, or_false] at hk
  rcases hk with h1 | h1 | h1 | h1 | h1 <;> subst h1 <;> simp [dmem]

theorem callTreeFrom_append : ∀ {d : Nat} {xs : List (String × Nat)}, CallTreeFrom d xs →
    ∀ {ys : List (String × Nat)}, CallTreeFrom d ys → CallTreeFrom d (xs ++ ys) := by
  intro d xs hx
  induction hx with
  | nil _ =>
    intro ys hy
    simpa using hy
  | grow d0 a inner rest hi hr _ihi ihr =>
    intro ys hy
    have hg := CallTreeFrom.grow d0 a inner (rest ++ ys) hi (ihr hy)
    simpa [List.append_assoc] using hg

theorem tExt_refl (level : Nat) (s : TState) : TExt level s s :=
  ⟨⟨[], (List.append_nil _).symm⟩, ⟨[], (List.append_nil _).symm, CallTreeFrom.nil level⟩⟩

theorem tExt_trans (level : Nat) (a b c : TState) (h1 : TExt level a b) (h2 : TExt level b c) :
    TExt level a c := by
  obtain ⟨⟨v1, hv1⟩, ⟨s1, hs1, hc1⟩⟩ := h1
  obtain ⟨⟨v2, hv2⟩, ⟨s2, hs2, hc2⟩⟩ := h2
  refine ⟨⟨v1 ++ v2, ?_⟩, ⟨s1 ++ s2, ?_, callTreeFrom_append hc1 hc2⟩⟩
  · rw [hv2, hv1, List.append_assoc]
  · rw [hs2, hs1, List.append_assoc]

theorem foldl_pres (P : TState → Prop) (E : TState → TState → Prop)
    (hrefl : ∀ s, E s s) (htrans : ∀ a b c, E a b → E b c → E a c)
    (f : TState → String → TState)
    (hstep : ∀ s d, P s → P (f s d) ∧ E s (f s d)) :
    ∀ (l : List String) (s : TState), P s → P (l.foldl f s) ∧ E s (l.foldl f s) := by
  intro l
  induction l with
  | nil =>
    intro s hs
    exact ⟨hs, hrefl s⟩
  | cons d t ih =>
    intro s hs
    have h1 := hstep s d hs
    have h2 := ih (f s d) h1.1
    exact ⟨h2.1, htrans _ _ _ h1.2 h2.2⟩

theorem registryFind_name (reg : List AgentDef) (n : String) (ag : AgentDef)
    (h : registryFind reg n = some ag) : ag.name = n := by
  have h2 : reg.find? (fun a => a.name == n) = some ag := h
  simpa using List.find?_some h2

theorem registryFind_mem (reg : List AgentDef) (n : String) (ag : AgentDef)
    (h : registryFind reg n = some ag) : n ∈ regNames reg := by
  have h2 : reg.find? (fun a => a.name == n) = some ag := h
  have hm := List.mem_of_find?_eq_some h2
  rw [regNames, ← registryFind_name reg n ag h]
  exact List.mem_map.mpr ⟨ag, hm, rfl⟩

theorem analyzeRec_succ (reg : List AgentDef) (req : String) (reply : String → String)
    (parse : List Char → Option PyObj) (fuel : Nat) (name : String) (level : Nat)
    (st : TState) :
    analyzeRec reg req reply parse (fuel + 1) name level st =
      match registryFind reg name with
      | none => st
      | some ag =>
        if name ∈ st.visited then st
        else
          ag.downstream.foldl
            (fun acc d =>
              if pyTruthy (dgetD (interpret req ag.downstream (reply name) parse)
                  (needsKeyR d) (Json.bool false)) then
                analyzeRec reg req reply parse fuel d (level + 1) acc
              else acc)
            (recordStep name level (interpret req ag.downstream (reply name) parse) st) := rfl

theorem recordStep_inv (reg : List AgentDef) (name : String) (level : Nat)
    (analysis : PyObj) (st : TState) (hInv : TInv reg st)
    (hname : name ∈ regNames reg) (hv : name ∉ st.visited) :
    TInv reg (recordStep name level analysis st) := by
  obtain ⟨hnd, htv, hsub, hkeys⟩ := hInv
  refine ⟨?_, ?_, ?_, ?_⟩
  · show (st.visited ++ [name]).Nodup
    rw [List.nodup_append]
    refine ⟨hnd, List.nodup_singleton name, ?_⟩
    intro a ha ha2
    rw [List.mem_singleton] at ha2
    subst ha2
    exact hv ha
  · show (st.tree ++ [(name, level)]).map Prod.fst = st.visited ++ [name]
    rw [List.map_append, htv]
    rfl
  · intro x hx
    rcases List.mem_append.mp hx with hx1 | hx1
    · exact hsub x hx1
    · rw [List.mem_singleton] at hx1
      subst hx1
      exact hname
  · intro hinj
    have hk := hkeys hinj
    have hnm : pyKeyRec name ∉ st.analyses.map Prod.fst := by
      rw [hk]
      intro hc
      obtain ⟨v, hvm, hve⟩ := List.mem_map.mp hc
      have := hinj v (hsub v hvm) name hname hve
      subst this
      exact hv hvm
    show (dinsert st.analyses (pyKeyRec name) _).map Prod.fst =
      (st.visited ++ [name]).map pyKeyRec
    rw [map_fst_dinsert_of_not_mem _ _ _ hnm, hk, List.map_append]
    rfl

theorem analyzeRec_ok (reg : List AgentDef) (req : String) (reply : String → String)
    (parse : List Char → Option PyObj) :
    ∀ (fuel : Nat) (name : String) (level : Nat) (st : TState), TInv reg st →
      TInv reg (analyzeRec reg req reply parse fuel name level st) ∧
      TExt level st (analyzeRec reg req reply parse fuel name level st) := by
  intro fuel
  induction fuel with
  | zero =>
    intro name level st h
    exact ⟨h, tExt_refl level st⟩
  | succ fuel ih =>
    intro name level st hInv
    rw [analyzeRec_succ]
    cases hf : registryFind reg name with
    | none =>
      simp only [hf]
      exact ⟨hInv, tExt_refl level st⟩
    | some ag =>
      simp only [hf]
      by_cases hv : name ∈ st.visited
      · rw [if_pos hv]
        exact ⟨hInv, tExt_refl level st⟩
      · rw [if_neg hv]
        have hname : name ∈ regNames reg := registryFind_mem reg name ag hf
        have hInv1 : TInv reg
            (recordStep name level (interpret req ag.downstream (reply name) parse) st) :=
          recordStep_inv reg name level _ st hInv hname hv
        have hfold := foldl_pres (TInv reg) (TExt (level + 1)) (tExt_refl (level + 1))
          (tExt_trans (level + 1))
          (fun acc d =>
            if pyTruthy (dgetD (interpret req ag.downstream (reply name) parse)
                (needsKeyR d) (Json.bool false)) then
              analyzeRec reg req reply parse fuel d (level + 1) acc
            else acc)
          (fun s d hP => by
            dsimp only
            by_cases ht : pyTruthy (dgetD (interpret req ag.downstream (reply name) parse)
                (needsKeyR d) (Json.bool false)) = true
            · rw [if_pos ht]
              exact ih d (level + 1) s hP
            · rw [if_neg ht]
              exact ⟨hP, tExt_refl (level + 1) s⟩)
          ag.downstream
          (recordStep name level (interpret req ag.downstream (reply name) parse) st) hInv1
        refine ⟨hfold.1, ?_, ?_⟩
        · obtain ⟨⟨vs, hvs⟩, _⟩ := hfold.2
          refine ⟨name :: vs, ?_⟩
          rw [hvs]
          show (st.visited ++ [name]) ++ vs = st.visited ++ name :: vs
          rw [List.append_assoc]
          rfl
        · obtain ⟨_, ⟨seg, hseg, hctf⟩⟩ := hfold.2
          refine ⟨(name, level) :: seg, ?_, ?_⟩
          · rw [hseg]
            show (st.tree ++ [(name, level)]) ++ seg = st.tree ++ (name, level) :: seg
            rw [List.append_assoc]
            rfl
          · simpa using CallTreeFrom.grow level name seg [] hctf (CallTreeFrom.nil level)

theorem initState_inv (reg : List AgentDef) : TInv reg initState := by
  refine ⟨List.nodup_nil, rfl, ?_, fun _ => rfl⟩
  intro x hx
  cases hx

theorem orchestrateCore_ok (reg : List AgentDef) (fuel : Nat) (req : String)
    (reply : String → String) (parse : List Char → Option PyObj) :
    TInv reg (orchestrateCore reg fuel req reply parse) ∧
    TExt 0 initState (orchestrateCore reg fuel req reply parse) := by
  exact foldl_pres (TInv reg) (TExt 0) (tExt_refl 0) (tExt_trans 0) _
    (fun s n hP => analyzeRec_ok reg req reply parse fuel n 0 s hP)
    (startAgents req) initState (initState_inv reg)

theorem keyInj_src : KeyInj srcAgents := by
  show ∀ a ∈ regNames srcAgents, ∀ b ∈ regNames srcAgents, pyKeyRec a = pyKeyRec b → a = b
  decide

theorem analyzeRec_visits (reg : List AgentDef) (req : String) (reply : String → String)
    (parse : List Char → Option PyObj) (fuel : Nat) (name : String) (level : Nat)
    (st : TState) (ag : AgentDef) (hf : registryFind reg name = some ag)
    (hInv : TInv reg st) :
    name ∈ (analyzeRec reg req reply parse (fuel + 1) name level st).visited := by
  rw [analyzeRec_succ]
  simp only [hf]
  by_cases hv : name ∈ st.visited
  · rw [if_pos hv]
    exact hv
  · rw [if_neg hv]
    have hname : name ∈ regNames reg := registryFind_mem reg name ag hf
    have hInv1 : TInv reg
        (recordStep name level (interpret req ag.downstream (reply name) parse) st) :=
      recordStep_inv reg name level _ st hInv hname hv
    have hfold := foldl_pres (TInv reg) (TExt (level + 1)) (tExt_refl (level + 1))
      (tExt_trans (level + 1))
      (fun acc d =>
        if pyTruthy (dgetD (interpret req ag.downstream (reply name) parse)
            (needsKeyR d) (Json.bool false)) then
          analyzeRec reg req reply parse fuel d (level + 1) acc
        else acc)
      (fun s d hP => by
        dsimp only
        by_cases ht : pyTruthy (dgetD (interpret req ag.downstream (reply name) parse)
            (needsKeyR d) (Json.bool false)) = true
        · rw [if_pos ht]
          exact analyzeRec_ok reg req reply parse fuel d (level + 1) s hP
        · rw [if_neg ht]
          exact ⟨hP, tExt_refl (level + 1) s⟩)
      ag.downstream
      (recordStep name level (interpret req ag.downstream (reply name) parse) st) hInv1
    obtain ⟨⟨vs, hvs⟩, _⟩ := hfold.2
    rw [hvs]
    show name ∈ (st.visited ++ [name]) ++ vs
    exact List.mem_append_left vs (List.mem_append_right st.visited (List.mem_singleton.mpr rfl))

theorem visited_mono (reg : List AgentDef) (req : String) (reply : String → String)
    (parse : List Char → Option PyObj) (fuel : Nat) (name : String) (level : Nat)
    (st : TState) (y : String) (hInv : TInv reg st) (hy : y ∈ st.visited) :
    y ∈ (analyzeRec reg req reply parse fuel name level st).visited := by
  obtain ⟨⟨vs, hvs⟩, _⟩ := (analyzeRec_ok reg req reply parse fuel name level st hInv).2
  rw [hvs]
  exact List.mem_append_left vs hy

theorem orchestrate_some (req : String) (reply : String → String)
    (parse : List Char → Option PyObj) (r : OrchestrationResult)
    (h : orchestrate req reply parse = some r) :
    r.agents_involved = (orchestrateCore srcAgents defaultFuel req reply parse).visited ∧
    r.analyses = (orchestrateCore srcAgents defaultFuel req reply parse).analyses ∧
    r.call_tree = (orchestrateCore srcAgents defaultFuel req reply parse).tree ∧
    pySum (r.analyses.map (fun p => dgetD p.2 effortKey (Json.num 0))) =
      some r.total_effort_hours := by
  simp only [orchestrate] at h
  cases hs : pySum ((orchestrateCore srcAgents defaultFuel req reply parse).analyses.map
      (fun p => dgetD p.2 effortKey (Json.num 0))) with
  | none =>
    rw [hs] at h
    cases h
  | some t =>
    rw [hs] at h
    have h2 := Option.some.inj h
    subst h2
    exact ⟨rfl, rfl, rfl, hs⟩

theorem core_keys_eq (fuel : Nat) (req : String) (reply : String → String)
    (parse : List Char → Option PyObj) :
    (orchestrateCore srcAgents fuel req reply parse).analyses.map Prod.fst =
      (orchestrateCore srcAgents fuel req reply parse).visited.map pyKeyRec :=
  (orchestrateCore_ok srcAgents fuel req reply parse).1.2.2.2 keyInj_src

theorem core_keys_nodup (fuel : Nat) (req : String) (reply : String → String)
    (parse : List Char → Option PyObj) :
    ((orchestrateCore srcAgents fuel req reply parse).analyses.map Prod.fst).Nodup := by
  rw [core_keys_eq]
  obtain ⟨hnd, _, hsub, _⟩ := (orchestrateCore_ok srcAgents fuel req reply parse).1
  exact List.Nodup.map_on
    (fun x hx y hy he => keyInj_src x (hsub x hx) y (hsub y hy) he) hnd

theorem startAgents_default (req : String)
    (h : ∀ w ∈ kwMobile ++ kwStaff, occurs w.data (pyLower req).data = false) :
    startAgents req = [agentA1name, agentA2name] := by
  have h1 : (kwMobile.any fun w => occurs w.data (pyLower req).data) = false := by
    rw [List.any_eq_false]
    intro w hw
    simp [h w (List.mem_append_left _ hw)]
  have h2 : (kwStaff.any fun w => occurs w.data (pyLower req).data) = false := by
    rw [List.any_eq_false]
    intro w hw
    simp [h w (List.mem_append_right _ hw)]
  simp [startAgents, h1, h2]

theorem interpret_req_key (req : String) (ds : List String) (raw : String)
    (parse : List Char → Option PyObj) (obj : PyObj) (k : String)
    (h : parsedObj raw parse = some obj) (hk : k ∈ requiredKeys) :
    dgetOpt (interpret req ds raw parse) k =
      if dmem obj k then dgetOpt obj k else some (defaultFor k) := by
  rw [interpret_eq_parsed req ds raw parse obj h, ensureFlags_dget]
  have hm : dmem (backfillRequired obj) k = true := by
    rw [dmem_backfillRequired]
    simp [hk]
  rw [if_pos hm, backfillRequired_dget_req obj k hk]

theorem interpret_dmem_req (req : String) (ds : List String) (raw : String)
    (parse : List Char → Option PyObj) (obj : PyObj) (k : String)
    (h : parsedObj raw parse = some obj) (hk : k ∈ requiredKeys) :
    dmem (interpret req ds raw parse) k = true := by
  rw [interpret_eq_parsed req ds raw parse obj h, dmem_ensureFlags, dmem_backfillRequired]
  simp [hk]

theorem defaultAnalysis_dmem_needs (req : String) (ds : List String) (d : String)
    (hd : d ∈ ds) : dmem (defaultAnalysis req ds) (needsKey d) = true := by
  rw [defaultAnalysis, dmem_setFlagsFalse]
  have ha : (ds.any fun d2 => needsKey d2 == needsKey d) = true :=
    List.any_eq_true.mpr ⟨d, hd, by simp⟩
  simp [ha]

theorem interpret_dmem_needs (req : String) (ds : List String) (raw : String)
    (parse : List Char → Option PyObj) (obj : PyObj) (d : String)
    (h : parsedObj raw parse = some obj) (hd : d ∈ ds) :
    dmem (interpret req ds raw parse) (needsKey d) = true := by
  rw [interpret_eq_parsed req ds raw parse obj h, dmem_ensureFlags]
  have ha : (ds.any fun d2 => needsKey d2 == needsKey d) = true :=
    List.any_eq_true.mpr ⟨d, hd, by simp⟩
  simp [ha]

theorem interpret_needs_default (req : String) (ds : List String) (raw : String)
    (parse : List Char → Option PyObj) (obj : PyObj) (d : String)
    (h : parsedObj raw parse = some obj) (hd : d ∈ ds)
    (hm : dmem obj (needsKey d) = false) :
    dgetOpt (interpret req ds raw parse) (needsKey d) = some (Json.bool false) := by
  rw [interpret_eq_parsed req ds raw parse obj h, ensureFlags_dget]
  have hm2 : dmem (backfillRequired obj) (needsKey d) = false := by
    rw [dmem_backfillRequired, hm]
    simp [needsKey_not_req d]
  rw [if_neg (by simp [hm2]), if_pos (List.any_eq_true.mpr ⟨d, hd, by simp⟩)]

/-- C1: Idempotent visitation — for every registry graph, fuel bound, feature
request, completion oracle and parse oracle, each agent name appears at most once
in the visited sequence and at most once among the call-tree entries of the
traversal state, and likewise in any `OrchestrationResult` that `orchestrate`
returns; a second reach of a visited agent leaves the state unchanged, so no
duplicate entry can arise. -/
theorem C1_idempotent_visitation (reg : List AgentDef) (fuel : Nat) (req : String)
    (reply : String → String) (parse : List Char → Option PyObj) :
    (orchestrateCore reg fuel req reply parse).visited.Nodup ∧
    ((orchestrateCore reg fuel req reply parse).tree.map Prod.fst).Nodup ∧
    (∀ r : OrchestrationResult, orchestrate req reply parse = some r →
      r.agents_involved.Nodup ∧ (r.call_tree.map Prod.fst).Nodup) := by
  obtain ⟨hnd, htv, _, _⟩ := (orchestrateCore_ok reg fuel req reply parse).1
  refine ⟨hnd, by rw [htv]; exact hnd, ?_⟩
  intro r hr
  obtain ⟨hv, _, ht, _⟩ := orchestrate_some req reply parse r hr
  obtain ⟨hnd2, htv2, _, _⟩ := (orchestrateCore_ok srcAgents defaultFuel req reply parse).1
  rw [hv, ht, htv2]
  exact ⟨hnd2, hnd2⟩

/-- C1 witness: the idempotent-visitation theorem applied to a concrete run. -/
theorem C1_witness :
    ((orchestrate wReq oracleEmpty parseNone).getD dummyResult).agents_involved.Nodup ∧
    (((orchestrate wReq oracleEmpty parseNone).getD dummyResult).call_tree.map
      Prod.fst).Nodup :=
  (C1_idempotent_visitation srcAgents defaultFuel wReq oracleEmpty parseNone).2.2
    ((orchestrate wReq oracleEmpty parseNone).getD dummyResult) (by rfl)

/-- C4: Call-tree/visited consistency — the call tree's agent names, in order,
equal the visited sequence, and the depth annotations form a preorder forest in
which seeds carry depth 0 and every recursion step adds one (`CallTreeFrom 0`),
so each entry's depth is the number of recursion edges from the seed that first
reached it; the same holds of any returned `OrchestrationResult`. -/
theorem C4_call_tree_consistency (reg : List AgentDef) (fuel : Nat) (req : String)
    (reply : String → String) (parse : List Char → Option PyObj) :
    ((orchestrateCore reg fuel req reply parse).tree.map Prod.fst =
      (orchestrateCore reg fuel req reply parse).visited) ∧
    CallTreeFrom 0 (orchestrateCore reg fuel req reply parse).tree ∧
    (∀ r : OrchestrationResult, orchestrate req reply parse = some r →
      r.call_tree.map Prod.fst = r.agents_involved ∧ CallTreeFrom 0 r.call_tree) := by
  obtain ⟨_, htv, _, _⟩ := (orchestrateCore_ok reg fuel req reply parse).1
  have hct : CallTreeFrom 0 (orchestrateCore reg fuel req reply parse).tree := by
    obtain ⟨_, ⟨seg, hseg, hc⟩⟩ := (orchestrateCore_ok reg fuel req reply parse).2
    rw [hseg]
    show CallTreeFrom 0 ([] ++ seg)
    simpa using hc
  refine ⟨htv, hct, ?_⟩
  intro r hr
  obtain ⟨hv, _, ht, _⟩ := orchestrate_some req reply parse r hr
  obtain ⟨_, htv2, _, _⟩ := (orchestrateCore_ok srcAgents defaultFuel req reply parse).1
  have hct2 : CallTreeFrom 0 (orchestrateCore srcAgents defaultFuel req reply parse).tree := by
    obtain ⟨_, ⟨seg, hseg, hc⟩⟩ := (orchestrateCore_ok srcAgents defaultFuel req reply parse).2
    rw [hseg]
    show CallTreeFrom 0 ([] ++ seg)
    simpa using hc
  rw [hv, ht]
  exact ⟨htv2, hct2⟩

/-- C4 witness: the call-tree/visited consistency theorem applied to a concrete run. -/
theorem C4_witness :
    ((orchestrate wReq oracleEmpty parseNone).getD dummyResult).call_tree.map Prod.fst =
      ((orchestrate wReq oracleEmpty parseNone).getD dummyResult).agents_involved ∧
    CallTreeFrom 0 ((orchestrate wReq oracleEmpty parseNone).getD dummyResult).call_tree :=
  (C4_call_tree_consistency srcAgents defaultFuel wReq oracleEmpty parseNone).2.2
    ((orchestrate wReq oracleEmpty parseNone).getD dummyResult) (by rfl)

/-- C3: Effort additivity — in every `OrchestrationResult` that `orchestrate`
returns, the total-effort field is exactly Python's `sum` of the `effort_hours`
field over the entries of the analyses map (computed once after traversal), and
the analyses map has pairwise-distinct keys with exactly one entry per visited
agent, so no agent's effort is counted twice. -/
theorem C3_effort_additivity (req : String) (reply : String → String)
    (parse : List Char → Option PyObj) (r : OrchestrationResult)
    (h : orchestrate req reply parse = some r) :
    pySum (r.analyses.map (fun p => dgetD p.2 effortKey (Json.num 0))) =
      some r.total_effort_hours ∧
    (r.analyses.map Prod.fst).Nodup ∧
    r.analyses.length = r.agents_involved.length := by
  obtain ⟨hv, ha, _, hsum⟩ := orchestrate_some req reply parse r h
  refine ⟨hsum, ?_, ?_⟩
  · rw [ha]
    exact core_keys_nodup defaultFuel req reply parse
  · rw [ha, hv]
    have hk := core_keys_eq defaultFuel req reply parse
    have hlen := congrArg List.length hk
    simpa using hlen

/-- C3 witness: effort additivity applied to a concrete run. -/
theorem C3_witness :
    pySum (((orchestrate wReq oracleEmpty parseNone).getD dummyResult).analyses.map
      (fun p => dgetD p.2 effortKey (Json.num 0))) =
      some ((orchestrate wReq oracleEmpty parseNone).getD dummyResult).total_effort_hours ∧
    (((orchestrate wReq oracleEmpty parseNone).getD dummyResult).analyses.map
      Prod.fst).Nodup ∧
    ((orchestrate wReq oracleEmpty parseNone).getD dummyResult).analyses.length =
      ((orchestrate wReq oracleEmpty parseNone).getD dummyResult).agents_involved.length :=
  C3_effort_additivity wReq oracleEmpty parseNone
    ((orchestrate wReq oracleEmpty parseNone).getD dummyResult) (by rfl)

/-- C10: analyses-map key normalization — in every returned result the analyses
map is keyed, in order, by the visited names normalized with
`name.lower().replace("-", "_")`, those keys are pairwise distinct (so each
visited name has exactly one entry under its normalized key), and the
normalization sends the registry name of the first agent to its snake-case form. -/
theorem C10_key_normalization (req : String) (reply : String → String)
    (parse : List Char → Option PyObj) (r : OrchestrationResult)
    (h : orchestrate req reply parse = some r) :
    r.analyses.map Prod.fst = r.agents_involved.map pyKeyRec ∧
    (r.analyses.map Prod.fst).Nodup ∧
    pyKeyRec agentA1name = agentA1key := by
  obtain ⟨hv, ha, _, _⟩ := orchestrate_some req reply parse r h
  refine ⟨?_, ?_, by decide⟩
  · rw [ha, hv]
    exact core_keys_eq defaultFuel req reply parse
  · rw [ha]
    exact core_keys_nodup defaultFuel req reply parse

/-- C10 witness: key normalization applied to a concrete run. -/
theorem C10_witness :
    ((orchestrate wReq oracleEmpty parseNone).getD dummyResult).analyses.map Prod.fst =
      ((orchestrate wReq oracleEmpty parseNone).getD dummyResult).agents_involved.map
        pyKeyRec ∧
    (((orchestrate wReq oracleEmpty parseNone).getD dummyResult).analyses.map
      Prod.fst).Nodup :=
  ⟨(C10_key_normalization wReq oracleEmpty parseNone
      ((orchestrate wReq oracleEmpty parseNone).getD dummyResult) (by rfl)).1,
   (C10_key_normalization wReq oracleEmpty parseNone
      ((orchestrate wReq oracleEmpty parseNone).getD dummyResult) (by rfl)).2.1⟩

/-- C8: Default start-set fallback — for every feature request containing none of
the configured selection keywords (and any oracles), the seed set is the fixed
default `[Agent-A1, Agent-A2]` (all top-level entry agents) and the visited
sequence of the traversal is non-empty. -/
theorem C8_default_start_set (req : String) (reply : String → String)
    (parse : List Char → Option PyObj)
    (h : ∀ w ∈ kwMobile ++ kwStaff, occurs w.data (pyLower req).data = false) :
    startAgents req = [agentA1name, agentA2name] ∧
    (orchestrateCore srcAgents defaultFuel req reply parse).visited ≠ [] := by
  have hsa := startAgents_default req h
  refine ⟨hsa, ?_⟩
  have hcore : orchestrateCore srcAgents defaultFuel req reply parse =
      analyzeRec srcAgents req reply parse defaultFuel agentA2name 0
        (analyzeRec srcAgents req reply parse defaultFuel agentA1name 0 initState) := by
    rw [orchestrateCore, hsa]
    rfl
  have h1 : agentA1name ∈
      (analyzeRec srcAgents req reply parse defaultFuel agentA1name 0 initState).visited :=
    analyzeRec_visits srcAgents req reply parse srcAgents.length agentA1name 0 initState
      agentA1 (by rfl) (initState_inv srcAgents)
  have hInv1 :=
    (analyzeRec_ok srcAgents req reply parse defaultFuel agentA1name 0 initState
      (initState_inv srcAgents)).1
  have h2 := visited_mono srcAgents req reply parse defaultFuel agentA2name 0 _
    agentA1name hInv1 h1
  rw [hcore]
  exact List.ne_nil_of_mem h2

/-- C8 witness: the fallback theorem applied to a concrete keyword-free request. -/
theorem C8_witness :
    startAgents noKwReq = [agentA1name, agentA2name] ∧
    (orchestrateCore srcAgents defaultFuel noKwReq oracleEmpty parseNone).visited ≠ [] :=
  C8_default_start_set noKwReq oracleEmpty parseNone (by decide)

/-- C5 counterexample: on a reply with no brace pair, the default record's
components and changes collections are NOT empty — they are the singleton
placeholders `["Unknown"]` and `["Analysis needed"]`, refuting the claim that the
default record has empty components and changes. -/
theorem C5_counterexample :
    dgetOpt (interpret c5Req [] c5Raw parseNone) componentsKey =
      some (Json.arr [Json.str unknownTxt]) ∧
    (¬ dgetOpt (interpret c5Req [] c5Raw parseNone) componentsKey =
      some (Json.arr [])) ∧
    dgetOpt (interpret c5Req [] c5Raw parseNone) changesKey =
      some (Json.arr [Json.str analysisNeededTxt]) ∧
    (¬ dgetOpt (interpret c5Req [] c5Raw parseNone) changesKey =
      some (Json.arr [])) := by
  refine ⟨by rfl, ?_, by rfl, ?_⟩
  · intro hc
    rw [show dgetOpt (interpret c5Req [] c5Raw parseNone) componentsKey =
        some (Json.arr [Json.str unknownTxt]) from rfl] at hc
    injection hc with hc2
    injection hc2 with hc3
    cases hc3
  · intro hc
    rw [show dgetOpt (interpret c5Req [] c5Raw parseNone) changesKey =
        some (Json.arr [Json.str analysisNeededTxt]) from rfl] at hc
    injection hc with hc2
    injection hc2 with hc3
    cases hc3

/-- C5 (amended): for every reply in which no brace pair exists after trimming and
fence stripping, and for every reply whose brace slice fails to parse, the
interpretation is the default record: impact is a placeholder referencing the
feature request, components is the singleton `["Unknown"]`, changes the singleton
`["Analysis needed"]`, effort is 0, risks is the single sentinel
`["AI analysis unavailable"]`, and every downstream flag is false. -/
theorem C5_default_record (req : String) (ds : List String) (raw : String)
    (parse : List Char → Option PyObj) (h : parsedObj raw parse = none) :
    interpret req ds raw parse = defaultAnalysis req ds ∧
    dgetOpt (interpret req ds raw parse) impactKey =
      some (Json.str (analyzingPre ++ req)) ∧
    dgetOpt (interpret req ds raw parse) componentsKey =
      some (Json.arr [Json.str unknownTxt]) ∧
    dgetOpt (interpret req ds raw parse) changesKey =
      some (Json.arr [Json.str analysisNeededTxt]) ∧
    dgetOpt (interpret req ds raw parse) effortKey = some (Json.num 0) ∧
    dgetOpt (interpret req ds raw parse) risksKey =
      some (Json.arr [Json.str unavailableTxt]) ∧
    ∀ d ∈ ds, dgetOpt (interpret req ds raw parse) (needsKey d) =
      some (Json.bool false) := by
  have he := interpret_eq_default req ds raw parse h
  rw [he]
  exact ⟨rfl, defaultAnalysis_impact req ds, defaultAnalysis_components req ds,
    defaultAnalysis_changes req ds, defaultAnalysis_effort req ds,
    defaultAnalysis_risks req ds, fun d hd => defaultAnalysis_needs req ds d hd⟩

/-- C5 witness: the default-record theorem applied to a concrete brace-free reply. -/
theorem C5_witness :
    interpret c5Req [agentB1name] c5Raw parseNone = defaultAnalysis c5Req [agentB1name] ∧
    dgetOpt (interpret c5Req [agentB1name] c5Raw parseNone) effortKey =
      some (Json.num 0) ∧
    dgetOpt (interpret c5Req [agentB1name] c5Raw parseNone) (needsKey agentB1name) =
      some (Json.bool false) :=
  ⟨(C5_default_record c5Req [agentB1name] c5Raw parseNone (by rfl)).1,
   (C5_default_record c5Req [agentB1name] c5Raw parseNone (by rfl)).2.2.2.2.1,
   (C5_default_record c5Req [agentB1name] c5Raw parseNone (by rfl)).2.2.2.2.2.2
     agentB1name (by decide)⟩

/-- C6 counterexample: a successfully parsed reply that omits `impact` is
backfilled with the placeholder string `"Not provided"`, not the empty string,
refuting the claim that a missing impact is backfilled with the empty string. -/
theorem C6_counterexample :
    dgetOpt (interpret c6Req [] c6Raw c6Parse) impactKey =
      some (Json.str notProvidedTxt) ∧
    ¬ dgetOpt (interpret c6Req [] c6Raw c6Parse) impactKey =
      some (Json.str ("")) := by
  refine ⟨by rfl, ?_⟩
  intro hc
  rw [show dgetOpt (interpret c6Req [] c6Raw c6Parse) impactKey =
      some (Json.str notProvidedTxt) from rfl] at hc
  injection hc with h2
  injection h2 with h3
  exact absurd h3 (by decide)

/-- C6 (amended): for every reply whose brace slice parses, each of the five
required fields missing from the parsed record is backfilled without failing —
impact with the placeholder `"Not provided"`, components/changes/risks with the
empty collection, effort with zero — every required field is present afterwards,
and a field the reply did supply is passed through unchanged. -/
theorem C6_backfill (req : String) (ds : List String) (raw : String)
    (parse : List Char → Option PyObj) (obj : PyObj)
    (h : parsedObj raw parse = some obj) :
    (dmem obj impactKey = false →
      dgetOpt (interpret req ds raw parse) impactKey = some (Json.str notProvidedTxt)) ∧
    (dmem obj componentsKey = false →
      dgetOpt (interpret req ds raw parse) componentsKey = some (Json.arr [])) ∧
    (dmem obj changesKey = false →
      dgetOpt (interpret req ds raw parse) changesKey = some (Json.arr [])) ∧
    (dmem obj risksKey = false →
      dgetOpt (interpret req ds raw parse) risksKey = some (Json.arr [])) ∧
    (dmem obj effortKey = false →
      dgetOpt (interpret req ds raw parse) effortKey = some (Json.num 0)) ∧
    (∀ k ∈ requiredKeys, dmem (interpret req ds raw parse) k = true) ∧
    (∀ k ∈ requiredKeys, dmem obj k = true →
      dgetOpt (interpret req ds raw parse) k = dgetOpt obj k) := by
  refine ⟨?_, ?_, ?_, ?_, ?_, ?_, ?_⟩
  · intro hm
    rw [interpret_req_key req ds raw parse obj impactKey h (by decide), hm]
    rfl
  · intro hm
    rw [interpret_req_key req ds raw parse obj componentsKey h (by decide), hm]
    rfl
  · intro hm
    rw [interpret_req_key req ds raw parse obj changesKey h (by decide), hm]
    rfl
  · intro hm
    rw [interpret_req_key req ds raw parse obj risksKey h (by decide), hm]
    rfl
  · intro hm
    rw [interpret_req_key req ds raw parse obj effortKey h (by decide), hm]
    rfl
  · intro k hk
    exact interpret_dmem_req req ds raw parse obj k h hk
  · intro k hk hm
    rw [interpret_req_key req ds raw parse obj k h hk, if_pos hm]

/-- C6 witness: the backfill theorem applied to a reply parsing to the empty
object. -/
theorem C6_witness :
    dgetOpt (interpret c6Req [] c6Raw c6Parse) impactKey =
      some (Json.str notProvidedTxt) ∧
    dgetOpt (interpret c6Req [] c6Raw c6Parse) componentsKey = some (Json.arr []) ∧
    dgetOpt (interpret c6Req [] c6Raw c6Parse) effortKey = some (Json.num 0) :=
  ⟨(C6_backfill c6Req [] c6Raw c6Parse [] (by rfl)).1 (by rfl),
   (C6_backfill c6Req [] c6Raw c6Parse [] (by rfl)).2.1 (by rfl),
   (C6_backfill c6Req [] c6Raw c6Parse [] (by rfl)).2.2.2.2.1 (by rfl)⟩

/-- C7 counterexample: a reply supplying the string `"yes"` for a declared
downstream's `needs_*` key yields a record whose flag entry is that string, not a
boolean — refuting the claim that the record carries a boolean flag for every
declared downstream name on every input. -/
theorem C7_counterexample :
    dgetOpt (interpret c7Req [agentB1name] c7Raw c7Parse) (needsKey agentB1name) =
      some (Json.str yesTxt) ∧
    ∀ b : Bool, ¬ dgetOpt (interpret c7Req [agentB1name] c7Raw c7Parse)
      (needsKey agentB1name) = some (Json.bool b) := by
  refine ⟨by rfl, ?_⟩
  intro b hc
  rw [show dgetOpt (interpret c7Req [agentB1name] c7Raw c7Parse) (needsKey agentB1name) =
      some (Json.str yesTxt) from rfl] at hc
  injection hc with h2
  injection h2

/-- C7 (amended): for every raw text (empty, brace-free, unparsable, or valid with
missing fields) and every downstream-name list, interpretation is total and yields
a record containing all five required fields and an entry under the `needs_*` key
of every declared downstream name; that entry is the boolean false whenever the
parsed reply does not supply the key (and on every default-record path), while a
reply-supplied value is passed through unchanged and need not be boolean. -/
theorem C7_parser_robustness (req : String) (ds : List String) (raw : String)
    (parse : List Char → Option PyObj) :
    (∀ k ∈ requiredKeys, dmem (interpret req ds raw parse) k = true) ∧
    (∀ d ∈ ds, dmem (interpret req ds raw parse) (needsKey d) = true) ∧
    (parsedObj raw parse = none → ∀ d ∈ ds,
      dgetOpt (interpret req ds raw parse) (needsKey d) = some (Json.bool false)) ∧
    (∀ obj, parsedObj raw parse = some obj → ∀ d ∈ ds,
      dmem obj (needsKey d) = false →
      dgetOpt (interpret req ds raw parse) (needsKey d) = some (Json.bool false)) := by
  refine ⟨?_, ?_, ?_, ?_⟩
  · intro k hk
    cases hp : parsedObj raw parse with
    | none =>
      rw [interpret_eq_default req ds raw parse hp]
      exact defaultAnalysis_dmem_req req ds k hk
    | some obj => exact interpret_dmem_req req ds raw parse obj k hp hk
  · intro d hd
    cases hp : parsedObj raw parse with
    | none =>
      rw [interpret_eq_default req ds raw parse hp]
      exact defaultAnalysis_dmem_needs req ds d hd
    | some obj => exact interpret_dmem_needs req ds raw parse obj d hp hd
  · intro hp d hd
    rw [interpret_eq_default req ds raw parse hp]
    exact defaultAnalysis_needs req ds d hd
  · intro obj hp d hd hm
    exact interpret_needs_default req ds raw parse obj d hp hd hm

/-- C7 witness: robustness applied to a concrete brace-free reply. -/
theorem C7_witness :
    dmem (interpret c7Req [agentB1name] c7wRaw parseNone) impactKey = true ∧
    dmem (interpret c7Req [agentB1name] c7wRaw parseNone) (needsKey agentB1name) = true ∧
    dgetOpt (interpret c7Req [agentB1name] c7wRaw parseNone) (needsKey agentB1name) =
      some (Json.bool false) :=
  ⟨(C7_parser_robustness c7Req [agentB1name] c7wRaw parseNone).1 impactKey (by decide),
   (C7_parser_robustness c7Req [agentB1name] c7wRaw parseNone).2.1 agentB1name (by decide),
   (C7_parser_robustness c7Req [agentB1name] c7wRaw parseNone).2.2.1 (by rfl)
     agentB1name (by decide)⟩

/-- C9 counterexample: a reply supplying `effort_hours = -1` parses and is passed
through, so the produced record's estimated effort is the negative number `-1`,
refuting the claim that every interpreted record has non-negative effort. -/
theorem C9_counterexample :
    dgetOpt (interpret c9Req [] c9Raw c9Parse) effortKey = some (Json.num (-1)) ∧
    ¬ (∃ q : ℤ, dgetOpt (interpret c9Req [] c9Raw c9Parse) effortKey =
      some (Json.num q) ∧ 0 ≤ q) := by
  refine ⟨by rfl, ?_⟩
  rintro ⟨q, hq, hge⟩
  rw [show dgetOpt (interpret c9Req [] c9Raw c9Parse) effortKey =
      some (Json.num (-1)) from rfl] at hq
  injection hq with h2
  injection h2 with h3
  rw [← h3] at hge
  exact absurd hge (by decide)

/-- C9 (amended): the interpreted record's effort is the non-negative number 0
whenever the reply yields no parsable object or the parsed object lacks the
`effort_hours` field; a parsed `effort_hours` value is passed through unvalidated
(and so may be negative or non-numeric). -/
theorem C9_effort_nonneg_default (req : String) (ds : List String) (raw : String)
    (parse : List Char → Option PyObj) :
    (parsedObj raw parse = none →
      dgetOpt (interpret req ds raw parse) effortKey = some (Json.num 0)) ∧
    (∀ obj, parsedObj raw parse = some obj → dmem obj effortKey = false →
      dgetOpt (interpret req ds raw parse) effortKey = some (Json.num 0)) ∧
    (∀ obj, parsedObj raw parse = some obj → dmem obj effortKey = true →
      dgetOpt (interpret req ds raw parse) effortKey = dgetOpt obj effortKey) := by
  refine ⟨?_, ?_, ?_⟩
  · intro hp
    rw [interpret_eq_default req ds raw parse hp]
    exact defaultAnalysis_effort req ds
  · intro obj hp hm
    rw [interpret_req_key req ds raw parse obj effortKey hp (by decide), hm]
    rfl
  · intro obj hp hm
    rw [interpret_req_key req ds raw parse obj effortKey hp (by decide), if_pos hm]

/-- C9 witness: the effort-default theorem applied to a concrete brace-free reply. -/
theorem C9_witness :
    dgetOpt (interpret c9Req [] c9wRaw parseNone) effortKey = some (Json.num 0) :=
  (C9_effort_nonneg_default c9Req [] c9wRaw parseNone).1 (by rfl)

/-- C2 (code bug): the claim — and the spec's stated design stance — is that
`orchestrate` never raises, for every sequence of completion replies including
those whose parsed fields have arbitrary values.  The code violates this: when a
reply parses successfully but carries a non-numeric `effort_hours` (here the
string `"ten"`), the final `sum(analysis.get("effort_hours", 0) ...)` on line 345
adds an `int` to a `str` and raises `TypeError`, which no handler catches.  In the
embedding that run is `none`; this theorem evaluates the orchestrator at the
failing input. -/
theorem C2_non_fatal_code_bug : orchestrate c2Req c2Reply c2Parse = none := by rfl
